import Mathlib

/-!
A verification development for the task scheduler and reminder delivery
engine of the toolbox repository.  The definitions below are a shallow
embedding of `src/modules/task_scheduler/model/mod.rs`: pure Rust
functions become Lean functions, methods taking `&mut self` become
state-passing functions `TaskScheduler → ... → TaskScheduler × Except
String Unit`, the `HashMap<u32, Task>` becomes an association list in
iteration order, `u32` ids become `Nat`, and `i64` timestamps become
`Int`.  File persistence (`save_tasks`) is modelled by a `tasks_file`
field recording the snapshot last written to disk.  The SMTP/OS
notification collaborators are external; the mail transport is an
abstract parameter and the composed message handed to it is modelled
explicitly.
-/

namespace Toolbox

/-- Task priority, from `enum TaskPriority` in mod.rs. -/
inductive TaskPriority where
  | Low
  | Medium
  | High
  | Urgent
deriving Repr, DecidableEq

/-- Task status, from `enum TaskStatus` in mod.rs. -/
inductive TaskStatus where
  | Pending
  | InProgress
  | Completed
  | Cancelled
deriving Repr, DecidableEq

/-- Reminder delivery channel, from `enum ReminderType` in mod.rs.
`All` is Email + SMS + Notification. -/
inductive ReminderType where
  | Email
  | Notification
  | Sms
  | Both
  | All
deriving Repr, DecidableEq

/-- From `struct SmsConfig` in mod.rs. -/
structure SmsConfig where
  phone_number : String
  carrier : String
  enabled : Bool
deriving Repr, DecidableEq

/-- From `struct EmailConfig` in mod.rs (`smtp_port : u16` and the retry
fields become `Nat`). -/
structure EmailConfig where
  email : String
  smtp_server : String
  smtp_port : Nat
  username : String
  password : String
  retry_attempts : Nat
  retry_delay_seconds : Nat
deriving Repr, DecidableEq

/-- From `struct Reminder` in mod.rs.  `reminder_time` and
`last_attempt` are Unix timestamps (`i64`, embedded as `Int`);
`retry_count` is a `u32` embedded as `Nat`. -/
structure Reminder where
  reminder_time : Int
  reminder_type : ReminderType
  sent : Bool
  retry_count : Nat
  last_attempt : Option Int
  error_message : Option String
deriving Repr, DecidableEq

/-- From `struct Task` in mod.rs. -/
structure Task where
  id : Nat
  title : String
  description : String
  due_date : Int
  priority : TaskPriority
  status : TaskStatus
  created_at : Int
  reminders : List Reminder
  tags : List String
deriving Repr, DecidableEq

/-- `Task::new` from mod.rs.  The Rust code reads the creation time from
the wall clock (`Utc::now().timestamp()`); here it is the explicit
parameter `now`. -/
def Task.new (id : Nat) (title description : String) (due_date : Int)
    (priority : TaskPriority) (tags : List String) (now : Int) : Task :=
  { id := id, title := title, description := description, due_date := due_date,
    priority := priority, status := TaskStatus.Pending, created_at := now,
    reminders := [], tags := tags }

/-- From `struct TaskScheduler` in mod.rs.  `tasks` is the
`HashMap<u32, Task>` as an association list in iteration order;
`tasks_file` models the content of the JSON tasks file on disk
(`save_tasks` serializes the pair `(tasks, next_id)`). -/
structure TaskScheduler where
  tasks : List (Nat × Task)
  next_id : Nat
  file_path : String
  email_config : Option EmailConfig
  sms_config : Option SmsConfig
  tasks_file : Option (List (Nat × Task) × Nat)
deriving Repr, DecidableEq

/-- `HashMap::get` on the association list: the value stored under key
`k`, if any. -/
def lookupTask (k : Nat) : List (Nat × Task) → Option Task
  | [] => none
  | (k1, v) :: rest => if k1 = k then some v else lookupTask k rest

/-- `HashMap::insert` on the association list: replace the entry with
key `k` in place, or append a fresh entry. -/
def insertAssoc (k : Nat) (v : Task) : List (Nat × Task) → List (Nat × Task)
  | [] => [(k, v)]
  | (k1, v1) :: rest =>
    if k1 = k then (k, v) :: rest else (k1, v1) :: insertAssoc k v rest

/-- `HashMap::remove` on the association list: drop the entry with key
`k` (keys are unique in a `HashMap`). -/
def removeAssoc (k : Nat) : List (Nat × Task) → List (Nat × Task)
  | [] => []
  | (k1, v1) :: rest =>
    if k1 = k then rest else (k1, v1) :: removeAssoc k rest

/-- `TaskScheduler::save_tasks` from mod.rs: writes the pair
`(self.tasks, self.next_id)` to the tasks file (write-through; I/O
errors are only logged, so the model records the snapshot written). -/
def TaskScheduler.save_tasks (s : TaskScheduler) : TaskScheduler :=
  { s with tasks_file := some (s.tasks, s.next_id) }

/-- `TaskScheduler::add_task` from mod.rs: allocate `next_id`, insert a
fresh `Task`, increment `next_id`, persist, and return the id.  `now`
stands for the wall-clock creation time read inside `Task::new`. -/
def TaskScheduler.add_task (s : TaskScheduler) (title description : String)
    (due_date : Int) (priority : TaskPriority) (tags : List String) (now : Int) :
    Nat × TaskScheduler :=
  (s.next_id,
   TaskScheduler.save_tasks
     { s with
       tasks := insertAssoc s.next_id
         (Task.new s.next_id title description due_date priority tags now) s.tasks,
       next_id := s.next_id + 1 })

/-- `TaskScheduler::update_task` from mod.rs: error if the id is absent,
otherwise insert the replacement wholesale under the key (the own
`id` field is not rewritten) and persist. -/
def TaskScheduler.update_task (s : TaskScheduler) (id : Nat) (updated_task : Task) :
    TaskScheduler × Except String Unit :=
  if (lookupTask id s.tasks).isSome then
    (TaskScheduler.save_tasks { s with tasks := insertAssoc id updated_task s.tasks },
     Except.ok ())
  else
    (s, Except.error ("Task with ID " ++ toString id ++ " not found"))

/-- `TaskScheduler::delete_task` from mod.rs: error if the id is absent,
otherwise remove the task and persist. -/
def TaskScheduler.delete_task (s : TaskScheduler) (id : Nat) :
    TaskScheduler × Except String Unit :=
  if (lookupTask id s.tasks).isSome then
    (TaskScheduler.save_tasks { s with tasks := removeAssoc id s.tasks },
     Except.ok ())
  else
    (s, Except.error ("Task with ID " ++ toString id ++ " not found"))

/-- `TaskScheduler::get_task` from mod.rs. -/
def TaskScheduler.get_task (s : TaskScheduler) (id : Nat) : Option Task :=
  lookupTask id s.tasks

/-- The digits-only phone number computed at the top of
`get_sms_gateway_email`:
`phone_number.chars().filter(|c| c.is_numeric()).collect()`.
The Rust `char::is_numeric` test agrees with `Char.isDigit` on ASCII input. -/
def clean_phone_number (phone_number : String) : String :=
  String.mk (phone_number.toList.filter (fun c => c.isDigit))

/-- The Rust `str::to_lowercase` conversion, character by character (they agree on
ASCII carrier names, which is all the gateway table distinguishes). -/
def to_lowercase (s : String) : String :=
  String.mk (s.toList.map Char.toLower)

/-- `TaskScheduler::get_sms_gateway_email` from mod.rs (it ignores
`self`): lowercase the carrier and map it through the fixed
carrier-to-gateway-domain table; unknown carriers give `none`. -/
def get_sms_gateway_email (phone_number carrier : String) : Option String :=
  let clean_number := clean_phone_number phone_number
  match to_lowercase carrier with
  | "att" => some (clean_number ++ "@txt.att.net")
  | "at&t" => some (clean_number ++ "@txt.att.net")
  | "verizon" => some (clean_number ++ "@vtext.com")
  | "tmobile" => some (clean_number ++ "@tmomail.net")
  | "t-mobile" => some (clean_number ++ "@tmomail.net")
  | "sprint" => some (clean_number ++ "@messaging.sprintpcs.com")
  | "boost" => some (clean_number ++ "@myboostmobile.com")
  | "cricket" => some (clean_number ++ "@sms.cricketwireless.net")
  | "metropcs" => some (clean_number ++ "@mymetropcs.com")
  | "virgin" => some (clean_number ++ "@vmobl.com")
  | "uscellular" => some (clean_number ++ "@email.uscc.net")
  | _ => none

/-- The carrier keys of the gateway table in `get_sms_gateway_email`. -/
def gatewayCarriers : List String :=
  ["att", "at&t", "verizon", "tmobile", "t-mobile", "sprint", "boost",
   "cricket", "metropcs", "virgin", "uscellular"]

/-- The message handed to the mail transport by `send_sms_reminder`
(an SMS travels as an email to the carrier gateway address).  The body
is the raw byte sequence of the Rust `String` (`str::len` and the slice
`&message[..157]` operate on UTF-8 bytes; for ASCII text bytes and
characters coincide). -/
structure SmsEmail where
  sender : String
  recipient : String
  subject : String
  body : List Nat
deriving Repr, DecidableEq

/-- The truncation step of `send_sms_reminder`: when `message.len()`
exceeds 160 the body becomes the slice `&message[..157]` followed by
three full stops, otherwise the message itself.  `46` is the UTF-8 byte
of the full stop, so `[46, 46, 46]` is the appended ellipsis. -/
def truncate_sms_message (message : List Nat) : List Nat :=
  if 160 < message.length then message.take 157 ++ [46, 46, 46] else message

/-- The composition phase of `TaskScheduler::send_sms_reminder` from
mod.rs: every check and construction performed before the mail transport
is invoked, in source order (SMS config present, SMS enabled, email
config present, carrier gateway resolution, truncation, message build).
The Rust code then hands the built message to the SMTP transport.
`task_id` is accepted and ignored exactly as in the source. -/
def TaskScheduler.send_sms_compose (s : TaskScheduler) (_task_id : Nat)
    (message : List Nat) : Except String SmsEmail :=
  match s.sms_config with
  | none => Except.error "SMS configuration not set"
  | some sms_config =>
    if sms_config.enabled = false then
      Except.error "SMS is disabled in configuration"
    else
      match s.email_config with
      | none => Except.error "Email configuration required for SMS (uses email-to-SMS gateway)"
      | some email_config =>
        match get_sms_gateway_email sms_config.phone_number sms_config.carrier with
        | none => Except.error ("Unsupported carrier: " ++ sms_config.carrier)
        | some gateway_email =>
          Except.ok
            { sender := "Task Reminder <" ++ email_config.email ++ ">",
              recipient := gateway_email,
              subject := "",
              body := truncate_sms_message message }

/-- `TaskScheduler::send_sms_reminder` from mod.rs, parameterized by the
external mail transport `mailer` (the SMTP send, whose wire behavior is
out of scope). -/
def TaskScheduler.send_sms_reminder (s : TaskScheduler) (task_id : Nat)
    (message : List Nat) (mailer : SmsEmail → Except String Unit) :
    Except String Unit :=
  match s.send_sms_compose task_id message with
  | Except.error e => Except.error e
  | Except.ok email =>
    match mailer email with
    | Except.ok _ => Except.ok ()
    | Except.error e => Except.error ("Failed to send SMS: " ++ e)

/-- The in-place update `task.reminders[reminder_index].sent = true`
performed by `mark_reminder_as_sent`. -/
def setSentTrue : Nat → List Reminder → List Reminder
  | _, [] => []
  | 0, r :: rs => { r with sent := true } :: rs
  | n + 1, r :: rs => r :: setSentTrue n rs

/-- `TaskScheduler::mark_reminder_as_sent` from mod.rs: look the task
up, check the index bound, set the `sent` flag of the reminder (and nothing
else) and persist; an absent task or an out-of-range index is an error
and mutates nothing. -/
def TaskScheduler.mark_reminder_as_sent (s : TaskScheduler)
    (task_id reminder_index : Nat) : TaskScheduler × Except String Unit :=
  match lookupTask task_id s.tasks with
  | none => (s, Except.error ("Task with ID " ++ toString task_id ++ " not found"))
  | some task =>
    if reminder_index < task.reminders.length then
      (TaskScheduler.save_tasks
        { s with
          tasks := insertAssoc task_id
            ({ task with reminders := setSentTrue reminder_index task.reminders })
            s.tasks },
       Except.ok ())
    else
      (s, Except.error ("Reminder index " ++ toString reminder_index ++
        " out of bounds for task " ++ toString task_id))

/-- One user-level store operation: an `add_task` call (with the wall
clock reading `now` taken inside it) or a `delete_task` call. -/
inductive StoreOp where
  | add (title description : String) (due_date : Int) (priority : TaskPriority)
      (tags : List String) (now : Int)
  | del (id : Nat)

/-- Run a sequence of store operations on a scheduler, collecting the
ids returned by the `add_task` calls in order. -/
def runOps : TaskScheduler → List StoreOp → List Nat × TaskScheduler
  | s, [] => ([], s)
  | s, StoreOp.add title descr due prio tags now :: ops =>
    ((s.add_task title descr due prio tags now).1 ::
      (runOps (s.add_task title descr due prio tags now).2 ops).1,
     (runOps (s.add_task title descr due prio tags now).2 ops).2)
  | s, StoreOp.del id :: ops => runOps (s.delete_task id).1 ops

/-- One entry of the `triggered_reminders` vector returned by
`check_reminders`: `(task_id, task_title, reminder_type,
reminder_index)`. -/
abbrev TriggeredEntry := Nat × String × ReminderType × Option Nat

/-- The `should_retry` test computed per reminder inside
`check_reminders`: unsent, under the retry limit of 3, and either never
attempted or more than 300 seconds (the 5-minute retry delay) past the
last attempt. -/
def should_retry (now : Int) (r : Reminder) : Bool :=
  !r.sent && decide (r.retry_count < 3) &&
    (r.last_attempt.isNone || decide (now - r.last_attempt.getD 0 > 300))

/-- The trigger test of `check_reminders`:
the reminder is unsent, due, and passes `should_retry`. -/
def triggerCond (now : Int) (r : Reminder) : Bool :=
  !r.sent && decide (r.reminder_time ≤ now) && should_retry now r

/-- The body of the per-reminder loop of `check_reminders`: when the
trigger test passes, record the attempt (`last_attempt = now`,
`retry_count += 1`) and branch on the reminder type.  Returns the
updated reminder, the queued desktop notifications (title,
description pairs dispatched to the OS before returning), and the
tuples pushed onto `triggered_reminders`.  Note the `Both` and `All`
branches queue the desktop notification but push no `Notification`
tuple and do not set `sent`; only the pure `Notification` branch sets
`sent = true` immediately. -/
def processReminder (now : Int) (id : Nat) (title description : String) (i : Nat)
    (r : Reminder) : Reminder × List (String × String) × List TriggeredEntry :=
  if triggerCond now r then
    match r.reminder_type with
    | ReminderType.Notification =>
      ({ r with
          last_attempt := some now
          retry_count := r.retry_count + 1
          sent := true },
       [(title, description)], [(id, title, ReminderType.Notification, none)])
    | ReminderType.Email =>
      ({ r with last_attempt := some now, retry_count := r.retry_count + 1 },
       [], [(id, title, ReminderType.Email, some i)])
    | ReminderType.Sms =>
      ({ r with last_attempt := some now, retry_count := r.retry_count + 1 },
       [], [(id, title, ReminderType.Sms, some i)])
    | ReminderType.Both =>
      ({ r with last_attempt := some now, retry_count := r.retry_count + 1 },
       [(title, description)], [(id, title, ReminderType.Email, some i)])
    | ReminderType.All =>
      ({ r with last_attempt := some now, retry_count := r.retry_count + 1 },
       [(title, description)],
       [(id, title, ReminderType.Email, some i),
        (id, title, ReminderType.Sms, some i)])
  else (r, [], [])

/-- The `enumerate` loop of `check_reminders` over the reminder list of one task,
reminders, starting at index `i`. -/
def processReminders (now : Int) (id : Nat) (title description : String) :
    Nat → List Reminder →
      List Reminder × List (String × String) × List TriggeredEntry
  | _, [] => ([], [], [])
  | i, r :: rs =>
    ((processReminder now id title description i r).1 ::
        (processReminders now id title description (i + 1) rs).1,
      (processReminder now id title description i r).2.1 ++
        (processReminders now id title description (i + 1) rs).2.1,
      (processReminder now id title description i r).2.2 ++
        (processReminders now id title description (i + 1) rs).2.2)

/-- The per-task part of the scan of `check_reminders`. -/
def processTask (now : Int) (id : Nat) (t : Task) :
    Task × List (String × String) × List TriggeredEntry :=
  ({ t with
      reminders := (processReminders now id t.title t.description 0 t.reminders).1 },
   (processReminders now id t.title t.description 0 t.reminders).2.1,
   (processReminders now id t.title t.description 0 t.reminders).2.2)

/-- `TaskScheduler::check_reminders` from mod.rs: scan the reminder list of every task:
reminders in iteration order, mutating the triggered ones in place,
dispatch the queued desktop notifications (an OS side effect that does
not touch store state), and save the tasks file when anything
triggered.  `now` is the wall-clock reading taken once at the top of
the function. -/
def TaskScheduler.check_reminders (s : TaskScheduler) (now : Int) :
    List TriggeredEntry × TaskScheduler :=
  ((s.tasks.map (fun p => (processTask now p.1 p.2).2.2)).flatten,
   if (s.tasks.map (fun p => (processTask now p.1 p.2).2.2)).flatten.isEmpty then
     { s with tasks := s.tasks.map (fun p => (p.1, (processTask now p.1 p.2).1)) }
   else
     TaskScheduler.save_tasks
       { s with
         tasks := s.tasks.map (fun p => (p.1, (processTask now p.1 p.2).1)) })

/-- Iterate `check_reminders` over a sequence of scan times, collecting
the output of each call. -/
def runChecks : TaskScheduler → List Int →
    List (List TriggeredEntry) × TaskScheduler
  | s, [] => ([], s)
  | s, now :: rest =>
    ((s.check_reminders now).1 :: (runChecks (s.check_reminders now).2 rest).1,
     (runChecks (s.check_reminders now).2 rest).2)

/-- A concrete SMS configuration used to exercise the send path. -/
def smsCfgW : SmsConfig :=
  { phone_number := "555-123-4567", carrier := "verizon", enabled := true }

/-- A concrete email configuration used to exercise the send path. -/
def emailCfgW : EmailConfig :=
  { email := "user@example.com", smtp_server := "smtp.example.com",
    smtp_port := 587, username := "user", password := "pw",
    retry_attempts := 3, retry_delay_seconds := 5 }

/-- A scheduler with both configurations set and SMS enabled. -/
def schedW : TaskScheduler :=
  { tasks := [], next_id := 1, file_path := "tasks.json",
    email_config := some emailCfgW, sms_config := some smsCfgW,
    tasks_file := none }

/-- The same scheduler with SMS disabled in its configuration. -/
def schedWDisabled : TaskScheduler :=
  { schedW with sms_config := some { smsCfgW with enabled := false } }

/-- A 200-byte message (200 copies of the byte 65). -/
def msgW : List Nat := List.replicate 200 65

/-- The SMS email composed for `msgW` under `schedW`. -/
def eW : SmsEmail :=
  { sender := "Task Reminder <user@example.com>",
    recipient := "5551234567@vtext.com",
    subject := "",
    body := List.replicate 157 65 ++ [46, 46, 46] }

deriving instance DecidableEq for Except

/-- A concrete task used by the store-operation claims. -/
def tBase : Task :=
  { id := 1, title := "Groceries", description := "buy milk", due_date := 100,
    priority := TaskPriority.Medium, status := TaskStatus.Pending,
    created_at := 50, reminders := [], tags := [] }

/-- A store holding `tBase` under key 1. -/
def sU : TaskScheduler :=
  { tasks := [(1, tBase)], next_id := 2, file_path := "tasks.json",
    email_config := none, sms_config := none, tasks_file := none }

/-- A replacement task whose own `id` field (99) differs from the key
it will be stored under. -/
def tU99 : Task := { tBase with id := 99, title := "Renamed" }

/-- An email reminder that failed once and carries an error message. -/
def rErr : Reminder :=
  { reminder_time := 10, reminder_type := ReminderType.Email, sent := false,
    retry_count := 2, last_attempt := some 40,
    error_message := some "smtp timeout" }

/-- `tBase` carrying the failed reminder `rErr`. -/
def tErr : Task := { tBase with reminders := [rErr] }

/-- A store holding `tErr` under key 1. -/
def sErr : TaskScheduler := { sU with tasks := [(1, tErr)] }

/-- A fresh email reminder due at time 10. -/
def rFresh : Reminder :=
  { reminder_time := 10, reminder_type := ReminderType.Email, sent := false,
    retry_count := 0, last_attempt := none, error_message := none }

/-- `tBase` carrying the fresh email reminder. -/
def tFresh : Task := { tBase with reminders := [rFresh] }

/-- A store holding `tFresh` under key 1. -/
def sFresh : TaskScheduler := { sU with tasks := [(1, tFresh)] }

/-- A fresh reminder of type `All` due at time 0. -/
def rAll : Reminder := { rFresh with reminder_type := ReminderType.All, reminder_time := 0 }

/-- `tBase` carrying the `All` reminder. -/
def tAll : Task := { tBase with reminders := [rAll] }

/-- A store holding `tAll` under key 1. -/
def sAll : TaskScheduler := { sU with tasks := [(1, tAll)] }

/-- The fresh email reminder after exhausting its three attempts. -/
def rSpent : Reminder := { rFresh with retry_count := 3 }

/-- `tBase` carrying the exhausted reminder. -/
def tSpent : Task := { tBase with reminders := [rSpent] }

/-- A store holding `tSpent` under key 1. -/
def sSpent : TaskScheduler := { sU with tasks := [(1, tSpent)] }

/-- Claim C7: `get_sms_gateway_email "555-123-4567" "verizon"` returns
`"5551234567@vtext.com"`; in general the non-digit characters of the
phone number are stripped and the carrier, compared case-insensitively,
is mapped through the fixed table, while every carrier outside the table
yields `none`. -/
theorem gateway_email_spec :
    get_sms_gateway_email "555-123-4567" "verizon" = some "5551234567@vtext.com"
    ∧ (∀ phone carrier, to_lowercase carrier = "at&t" →
        get_sms_gateway_email phone carrier = some (clean_phone_number phone ++ "@txt.att.net"))
    ∧ (∀ phone carrier, to_lowercase carrier = "verizon" →
        get_sms_gateway_email phone carrier = some (clean_phone_number phone ++ "@vtext.com"))
    ∧ (∀ phone carrier, to_lowercase carrier = "t-mobile" →
        get_sms_gateway_email phone carrier = some (clean_phone_number phone ++ "@tmomail.net"))
    ∧ (∀ phone carrier, to_lowercase carrier = "sprint" →
        get_sms_gateway_email phone carrier = some (clean_phone_number phone ++ "@messaging.sprintpcs.com"))
    ∧ (∀ phone carrier, to_lowercase carrier = "boost" →
        get_sms_gateway_email phone carrier = some (clean_phone_number phone ++ "@myboostmobile.com"))
    ∧ (∀ phone carrier, to_lowercase carrier = "cricket" →
        get_sms_gateway_email phone carrier = some (clean_phone_number phone ++ "@sms.cricketwireless.net"))
    ∧ (∀ phone carrier, to_lowercase carrier = "metropcs" →
        get_sms_gateway_email phone carrier = some (clean_phone_number phone ++ "@mymetropcs.com"))
    ∧ (∀ phone carrier, to_lowercase carrier = "virgin" →
        get_sms_gateway_email phone carrier = some (clean_phone_number phone ++ "@vmobl.com"))
    ∧ (∀ phone carrier, to_lowercase carrier = "uscellular" →
        get_sms_gateway_email phone carrier = some (clean_phone_number phone ++ "@email.uscc.net"))
    ∧ (∀ phone carrier, to_lowercase carrier ∉ gatewayCarriers →
        get_sms_gateway_email phone carrier = none) := by
  refine ⟨by decide, ?_, ?_, ?_, ?_, ?_, ?_, ?_, ?_, ?_, ?_⟩
  · intro phone carrier h; simp [get_sms_gateway_email, h]
  · intro phone carrier h; simp [get_sms_gateway_email, h]
  · intro phone carrier h; simp [get_sms_gateway_email, h]
  · intro phone carrier h; simp [get_sms_gateway_email, h]
  · intro phone carrier h; simp [get_sms_gateway_email, h]
  · intro phone carrier h; simp [get_sms_gateway_email, h]
  · intro phone carrier h; simp [get_sms_gateway_email, h]
  · intro phone carrier h; simp [get_sms_gateway_email, h]
  · intro phone carrier h; simp [get_sms_gateway_email, h]
  · intro phone carrier h
    simp only [gatewayCarriers, List.mem_cons, List.not_mem_nil, or_false] at h
    push_neg at h
    simp only [get_sms_gateway_email]
    split <;> simp_all

/-- Witness for C7: a mixed-case known carrier resolves through the
table, and an unknown carrier resolves to `none`. -/
theorem gateway_email_spec_witness :
    get_sms_gateway_email "617 555 0000" "Verizon" = some "6175550000@vtext.com"
    ∧ get_sms_gateway_email "555-123-4567" "comcast" = none := by
  refine ⟨?_, ?_⟩
  · have h := gateway_email_spec.2.2.1 "617 555 0000" "Verizon" (by decide)
    rw [h]; decide
  · exact gateway_email_spec.2.2.2.2.2.2.2.2.2.2 "555-123-4567" "comcast" (by decide)

/-- Claim C8: whenever `send_sms_reminder` reaches the mail transport,
the subject is empty and the body is the message unchanged when its
length is at most 160, and otherwise the first 157 bytes of the message
followed by "...", a body of exactly 160 bytes; in all cases the body
is at most 160 bytes (`str::len` counts UTF-8 bytes, which coincide
with characters for ASCII text). -/
theorem sms_truncation (s : TaskScheduler) (task_id : Nat) (message : List Nat)
    (e : SmsEmail) (h : s.send_sms_compose task_id message = Except.ok e) :
    e.subject = "" ∧ e.body.length ≤ 160 ∧
    (message.length ≤ 160 → e.body = message) ∧
    (160 < message.length →
      e.body = message.take 157 ++ [46, 46, 46] ∧ e.body.length = 160) := by
  unfold TaskScheduler.send_sms_compose at h
  split at h
  · exact absurd h (by simp)
  split at h
  · exact absurd h (by simp)
  split at h
  · exact absurd h (by simp)
  split at h
  · exact absurd h (by simp)
  rw [Except.ok.injEq] at h
  subst h
  refine ⟨rfl, ?_, ?_, ?_⟩
  · simp only [truncate_sms_message]
    split
    · simp only [List.length_append, List.length_take, List.length_cons,
        List.length_nil]
      omega
    · omega
  · intro hle
    simp [truncate_sms_message, Nat.not_lt.mpr hle]
  · intro hlt
    refine ⟨by simp [truncate_sms_message, hlt], ?_⟩
    simp only [truncate_sms_message, if_pos hlt, List.length_append,
      List.length_take, List.length_cons, List.length_nil]
    omega

set_option maxRecDepth 8192 in
/-- Witness for C8: a 200-byte message is truncated to 157 bytes plus
the three-byte ellipsis. -/
theorem sms_truncation_witness :
    schedW.send_sms_compose 1 msgW = Except.ok eW
    ∧ eW.subject = "" ∧ eW.body.length ≤ 160
    ∧ eW.body = msgW.take 157 ++ [46, 46, 46] := by
  have hc : schedW.send_sms_compose 1 msgW = Except.ok eW := by rfl
  exact ⟨hc, (sms_truncation schedW 1 msgW eW hc).1,
    (sms_truncation schedW 1 msgW eW hc).2.1,
    ((sms_truncation schedW 1 msgW eW hc).2.2.2 (by decide)).1⟩

/-- Claim C9: when the SMS configuration is present but disabled,
`send_sms_reminder` fails with "SMS is disabled in configuration" for
every task id, message, and mail transport (so no gateway is resolved
and the transport is never consulted); with no SMS configuration at all
it fails with "SMS configuration not set", likewise before any delivery
attempt. -/
theorem sms_disabled_no_send (s : TaskScheduler) (task_id : Nat)
    (message : List Nat) (mailer : SmsEmail → Except String Unit) :
    (∀ cfg, s.sms_config = some cfg → cfg.enabled = false →
      s.send_sms_reminder task_id message mailer =
        Except.error "SMS is disabled in configuration")
    ∧ (s.sms_config = none →
      s.send_sms_reminder task_id message mailer =
        Except.error "SMS configuration not set") := by
  constructor
  · intro cfg hc he
    simp [TaskScheduler.send_sms_reminder, TaskScheduler.send_sms_compose, hc, he]
  · intro hc
    simp [TaskScheduler.send_sms_reminder, TaskScheduler.send_sms_compose, hc]

/-- Witness for C9: a disabled SMS configuration short-circuits even
with a transport that would succeed. -/
theorem sms_disabled_no_send_witness :
    schedWDisabled.send_sms_reminder 1 [72, 105] (fun _ => Except.ok ()) =
      Except.error "SMS is disabled in configuration" :=
  (sms_disabled_no_send schedWDisabled 1 [72, 105] (fun _ => Except.ok ())).1
    { smsCfgW with enabled := false } rfl rfl

/-- Looking up the key just inserted finds the inserted value. -/
theorem lookupTask_insertAssoc_self (k : Nat) (v : Task) (l : List (Nat × Task)) :
    lookupTask k (insertAssoc k v l) = some v := by
  induction l with
  | nil => simp [insertAssoc, lookupTask]
  | cons p rest ih =>
    obtain ⟨k1, v1⟩ := p
    by_cases h : k1 = k
    · simp [insertAssoc, h, lookupTask]
    · simp [insertAssoc, h, lookupTask, ih]

/-- `setSentTrue` sets exactly the flag of the addressed reminder. -/
theorem setSentTrue_getElem (i : Nat) (rs : List Reminder) (r : Reminder)
    (h : rs[i]? = some r) :
    (setSentTrue i rs)[i]? = some { r with sent := true } := by
  induction rs generalizing i with
  | nil => simp at h
  | cons a as ih =>
    cases i with
    | zero =>
      simp only [List.getElem?_cons_zero, Option.some.injEq] at h
      subst h
      simp [setSentTrue]
    | succ n =>
      simp only [List.getElem?_cons_succ] at h
      simpa [setSentTrue] using ih n h

/-- An index with a value is in bounds. -/
theorem getElem?_some_lt (rs : List Reminder) (i : Nat) (r : Reminder)
    (h : rs[i]? = some r) : i < rs.length := by
  induction rs generalizing i with
  | nil => simp at h
  | cons a as ih =>
    cases i with
    | zero => simp
    | succ n =>
      simp only [List.getElem?_cons_succ] at h
      simpa using ih n h

/-- Claim C10: for an existing id, `update_task` succeeds and stores the
replacement task wholesale under the key — including its own
`id` field, which is not rewritten to match the key. -/
theorem update_task_wholesale (s : TaskScheduler) (id : Nat) (t : Task)
    (h : (s.get_task id).isSome) :
    (s.update_task id t).2 = Except.ok () ∧
    (s.update_task id t).1.get_task id = some t := by
  have h2 : (lookupTask id s.tasks).isSome := h
  unfold TaskScheduler.update_task
  rw [if_pos h2]
  refine ⟨rfl, ?_⟩
  simp only [TaskScheduler.get_task, TaskScheduler.save_tasks]
  exact lookupTask_insertAssoc_self id t s.tasks

/-- Witness for C10: replacing the task under key 1 with a task whose
own id field is 99 stores it verbatim. -/
theorem update_task_wholesale_witness :
    (sU.update_task 1 tU99).2 = Except.ok () ∧
    (sU.update_task 1 tU99).1.get_task 1 = some tU99 ∧ tU99.id = 99 :=
  ⟨(update_task_wholesale sU 1 tU99 (by decide)).1,
   (update_task_wholesale sU 1 tU99 (by decide)).2, rfl⟩

/-- Counterexample for C5: `mark_reminder_as_sent` in
`modules/task_scheduler/model/mod.rs` sets `sent` but does NOT clear
`error_message`: the reminder keeps its stale error text. -/
theorem mark_reminder_keeps_error_message :
    (sErr.mark_reminder_as_sent 1 0).2 = Except.ok () ∧
    ((sErr.mark_reminder_as_sent 1 0).1.get_task 1).bind
        (fun t => t.reminders[0]?) = some { rErr with sent := true } ∧
    ({ rErr with sent := true }).error_message = some "smtp timeout" ∧
    (((sErr.mark_reminder_as_sent 1 0).1.get_task 1).bind
        (fun t => t.reminders[0]?)).map Reminder.error_message ≠ some none := by
  decide

/-- Success case of `mark_reminder_as_sent`: Ok result, flag set,
store persisted. -/
theorem mark_sent_ok (s : TaskScheduler) (tid i : Nat) (t : Task) (r : Reminder)
    (ht : s.get_task tid = some t) (hr : t.reminders[i]? = some r) :
    (s.mark_reminder_as_sent tid i).2 = Except.ok () ∧
    ((s.mark_reminder_as_sent tid i).1.get_task tid).bind
        (fun u => u.reminders[i]?) = some { r with sent := true } ∧
    (s.mark_reminder_as_sent tid i).1.tasks_file =
      some ((s.mark_reminder_as_sent tid i).1.tasks, s.next_id) := by
  have ht2 : lookupTask tid s.tasks = some t := ht
  have hlen : i < t.reminders.length := getElem?_some_lt _ _ _ hr
  have hmark : s.mark_reminder_as_sent tid i =
      (TaskScheduler.save_tasks
        { s with
          tasks := insertAssoc tid
            ({ t with reminders := setSentTrue i t.reminders })
            s.tasks },
       Except.ok ()) := by
    simp [TaskScheduler.mark_reminder_as_sent, ht2, hlen]
  rw [hmark]
  refine ⟨rfl, ?_, rfl⟩
  simp only [TaskScheduler.get_task, TaskScheduler.save_tasks]
  rw [lookupTask_insertAssoc_self]
  simpa using setSentTrue_getElem i t.reminders r hr

/-- Claim C5 (amended): when the task exists and the index is in bounds,
`mark_reminder_as_sent` returns Ok, sets the `sent` flag of the reminder to
true, leaves `error_message` unchanged (the `scheduler.rs` variant of
this operation clears it, but the mod.rs implementation used by the
reminder engine does not), and persists the store; an absent task or an
out-of-bounds index returns an error and leaves the store unchanged. -/
theorem mark_reminder_as_sent_spec (s : TaskScheduler) (tid i : Nat) :
    (∀ t r, s.get_task tid = some t → t.reminders[i]? = some r →
      (s.mark_reminder_as_sent tid i).2 = Except.ok () ∧
      ((s.mark_reminder_as_sent tid i).1.get_task tid).bind
          (fun u => u.reminders[i]?) = some { r with sent := true } ∧
      ({ r with sent := true }).error_message = r.error_message ∧
      (s.mark_reminder_as_sent tid i).1.tasks_file =
        some ((s.mark_reminder_as_sent tid i).1.tasks, s.next_id))
    ∧ (s.get_task tid = none →
      s.mark_reminder_as_sent tid i =
        (s, Except.error ("Task with ID " ++ toString tid ++ " not found")))
    ∧ (∀ t, s.get_task tid = some t → t.reminders.length ≤ i →
      s.mark_reminder_as_sent tid i =
        (s, Except.error ("Reminder index " ++ toString i ++
          " out of bounds for task " ++ toString tid))) := by
  refine ⟨?_, ?_, ?_⟩
  · intro t r ht hr
    obtain ⟨h1, h2, h3⟩ := mark_sent_ok s tid i t r ht hr
    exact ⟨h1, h2, rfl, h3⟩
  · intro ht
    have ht2 : lookupTask tid s.tasks = none := ht
    simp [TaskScheduler.mark_reminder_as_sent, ht2]
  · intro t ht hle
    have ht2 : lookupTask tid s.tasks = some t := ht
    simp [TaskScheduler.mark_reminder_as_sent, ht2, Nat.not_lt.mpr hle]

/-- Witness for C5 (amended): marking the failed reminder of `sErr`
sent succeeds and keeps its error text. -/
theorem mark_reminder_as_sent_spec_witness :
    (sErr.mark_reminder_as_sent 1 0).2 = Except.ok () ∧
    ((sErr.mark_reminder_as_sent 1 0).1.get_task 1).bind
        (fun u => u.reminders[0]?) = some { rErr with sent := true } :=
  ⟨((mark_reminder_as_sent_spec sErr 1 0).1 tErr rErr (by decide) (by decide)).1,
   ((mark_reminder_as_sent_spec sErr 1 0).1 tErr rErr (by decide) (by decide)).2.1⟩

/-- `add_task` returns the current id counter. -/
theorem add_task_fst (s : TaskScheduler) (title descr : String) (due : Int)
    (prio : TaskPriority) (tags : List String) (now : Int) :
    (s.add_task title descr due prio tags now).1 = s.next_id := rfl

/-- `add_task` bumps the id counter by one. -/
theorem add_task_next_id (s : TaskScheduler) (title descr : String) (due : Int)
    (prio : TaskPriority) (tags : List String) (now : Int) :
    (s.add_task title descr due prio tags now).2.next_id = s.next_id + 1 := rfl

/-- `delete_task` never touches the id counter. -/
theorem delete_task_next_id (s : TaskScheduler) (id : Nat) :
    (s.delete_task id).1.next_id = s.next_id := by
  unfold TaskScheduler.delete_task
  split <;> rfl

/-- Over any operation sequence, the ids handed out are pairwise
increasing and all at least the starting counter. -/
theorem runOps_ids_bound (ops : List StoreOp) : ∀ s : TaskScheduler,
    List.Pairwise (· < ·) (runOps s ops).1 ∧
    ∀ x ∈ (runOps s ops).1, s.next_id ≤ x := by
  induction ops with
  | nil => intro s; simp [runOps]
  | cons op rest ih =>
    intro s
    cases op with
    | add title descr due prio tags now =>
      obtain ⟨hp, hb⟩ := ih (s.add_task title descr due prio tags now).2
      simp only [runOps]
      constructor
      · refine List.pairwise_cons.mpr ⟨?_, hp⟩
        intro y hy
        have h1 : s.next_id + 1 ≤ y := by
          have := hb y hy
          rwa [add_task_next_id] at this
        rw [add_task_fst]
        omega
      · intro x hx
        rcases List.mem_cons.mp hx with h | h
        · rw [h, add_task_fst]
        · have h1 : s.next_id + 1 ≤ x := by
            have := hb x h
            rwa [add_task_next_id] at this
          omega
    | del id =>
      obtain ⟨hp, hb⟩ := ih (s.delete_task id).1
      simp only [runOps]
      refine ⟨hp, ?_⟩
      intro x hx
      have := hb x hx
      rwa [delete_task_next_id] at this

/-- Claim C6: over every finite sequence of `add_task` and `delete_task`
calls on one scheduler, the ids returned by the `add_task` calls are
strictly increasing and never repeat, even with interleaved deletes. -/
theorem add_task_ids_monotone (s : TaskScheduler) (ops : List StoreOp) :
    List.Pairwise (· < ·) (runOps s ops).1 ∧ (runOps s ops).1.Nodup := by
  obtain ⟨hp, -⟩ := runOps_ids_bound ops s
  exact ⟨hp, hp.imp (fun h => Nat.ne_of_lt h)⟩

/-- The trigger test, spelled out as a proposition: unsent, due, under
the retry limit, and past the retry delay (or never attempted). -/
theorem triggerCond_iff (now : Int) (r : Reminder) :
    triggerCond now r = true ↔
      (r.sent = false ∧ r.reminder_time ≤ now ∧ r.retry_count < 3 ∧
        (r.last_attempt = none ∨
          ∃ la, r.last_attempt = some la ∧ now - la > 300)) := by
  unfold triggerCond should_retry
  cases h : r.last_attempt <;> simp [h] <;> tauto

/-- A reminder failing the trigger test is left untouched and emits
nothing. -/
theorem processReminder_not_triggered (now : Int) (id : Nat) (ttl dsc : String)
    (i : Nat) (r : Reminder) (h : triggerCond now r = false) :
    processReminder now id ttl dsc i r = (r, [], []) := by
  simp [processReminder, h]

/-- A reminder emits at least one tuple exactly when it passes the
trigger test. -/
theorem processReminder_out_ne_iff (now : Int) (id : Nat) (ttl dsc : String)
    (i : Nat) (r : Reminder) :
    (processReminder now id ttl dsc i r).2.2 ≠ [] ↔ triggerCond now r = true := by
  cases h : triggerCond now r with
  | false => simp [processReminder, h]
  | true =>
    simp only [processReminder, h, if_true]
    cases r.reminder_type <;> simp

/-- Every emitted tuple comes from a reminder that passed the trigger
test, carries the task id of that reminder, and carries either the
index of the reminder or no index. -/
theorem processReminder_out_mem (now : Int) (id : Nat) (ttl dsc : String)
    (i : Nat) (r : Reminder) (e : TriggeredEntry)
    (h : e ∈ (processReminder now id ttl dsc i r).2.2) :
    triggerCond now r = true ∧ e.1 = id ∧
      (e.2.2.2 = some i ∨ e.2.2.2 = none) := by
  cases hc : triggerCond now r with
  | false => simp [processReminder, hc] at h
  | true =>
    refine ⟨rfl, ?_⟩
    simp only [processReminder, hc, if_true] at h
    cases hty : r.reminder_type <;> rw [hty] at h <;>
      simp only [List.mem_cons, List.not_mem_nil, or_false] at h
    all_goals rcases h with rfl | rfl <;> simp

/-- Processing a reminder never decreases its retry count. -/
theorem processReminder_retry_mono (now : Int) (id : Nat) (ttl dsc : String)
    (i : Nat) (r : Reminder) :
    r.retry_count ≤ (processReminder now id ttl dsc i r).1.retry_count := by
  cases hc : triggerCond now r with
  | false => simp [processReminder, hc]
  | true =>
    simp only [processReminder, hc, if_true]
    cases r.reminder_type <;> exact Nat.le_succ _

/-- The updated reminder list of the scan, entry by entry. -/
theorem processReminders_fst_getElem (now : Int) (id : Nat) (ttl dsc : String)
    (rs : List Reminder) : ∀ (k j : Nat),
    ((processReminders now id ttl dsc k rs).1)[j]? =
      (rs[j]?).map (fun r => (processReminder now id ttl dsc (k + j) r).1) := by
  induction rs with
  | nil => intro k j; simp [processReminders]
  | cons a as ih =>
    intro k j
    cases j with
    | zero => simp [processReminders]
    | succ n =>
      simp only [processReminders, List.getElem?_cons_succ]
      rw [ih (k + 1) n]
      have h : k + 1 + n = k + (n + 1) := by omega
      rw [h]

/-- Every tuple emitted by the scan of the reminder list of one task comes
from one reminder of that list, at the matching index. -/
theorem mem_processReminders_out (now : Int) (id : Nat) (ttl dsc : String)
    (rs : List Reminder) : ∀ (k : Nat) (e : TriggeredEntry),
    e ∈ (processReminders now id ttl dsc k rs).2.2 →
    ∃ j r, rs[j]? = some r ∧
      e ∈ (processReminder now id ttl dsc (k + j) r).2.2 := by
  induction rs with
  | nil => intro k e h; simp [processReminders] at h
  | cons a as ih =>
    intro k e h
    simp only [processReminders, List.mem_append] at h
    rcases h with h | h
    · exact ⟨0, a, by simp, by simpa using h⟩
    · obtain ⟨j, r, hj, he⟩ := ih (k + 1) e h
      refine ⟨j + 1, r, by simpa using hj, ?_⟩
      have heq : k + 1 + j = k + (j + 1) := by omega
      rwa [heq] at he

/-- The output of `check_reminders` is the concatenation of the
per-task scans. -/
theorem check_reminders_fst (s : TaskScheduler) (now : Int) :
    (s.check_reminders now).1 =
      (s.tasks.map (fun p => (processTask now p.1 p.2).2.2)).flatten := rfl

/-- The task map after `check_reminders`: every task replaced by its
scanned version, keys unchanged. -/
theorem check_reminders_tasks (s : TaskScheduler) (now : Int) :
    (s.check_reminders now).2.tasks =
      s.tasks.map (fun p => (p.1, (processTask now p.1 p.2).1)) := by
  unfold TaskScheduler.check_reminders
  dsimp only
  split <;> rfl

/-- Looking a key up after mapping a key-preserving function over the
association list. -/
theorem lookupTask_map (l : List (Nat × Task)) (k : Nat) (g : Nat → Task → Task) :
    lookupTask k (l.map (fun p => (p.1, g p.1 p.2))) =
      (lookupTask k l).map (fun t => g k t) := by
  induction l with
  | nil => simp [lookupTask]
  | cons p rest ih =>
    obtain ⟨k1, v1⟩ := p
    by_cases h : k1 = k
    · subst h; simp [lookupTask]
    · simp [lookupTask, h, ih]

/-- With unique keys, membership determines the lookup result. -/
theorem lookupTask_eq_of_mem_nodup (l : List (Nat × Task)) (k : Nat) (v : Task)
    (hnd : (l.map Prod.fst).Nodup) (hm : (k, v) ∈ l) :
    lookupTask k l = some v := by
  induction l with
  | nil => simp at hm
  | cons p rest ih =>
    obtain ⟨k1, v1⟩ := p
    simp only [List.map_cons, List.nodup_cons] at hnd
    rcases List.mem_cons.mp hm with h | h
    · rw [Prod.mk.injEq] at h
      obtain ⟨h1, h2⟩ := h
      subst h1; subst h2
      simp [lookupTask]
    · by_cases hk : k1 = k
      · subst hk
        exact absurd (List.mem_map_of_mem Prod.fst h) hnd.1
      · simp only [lookupTask, hk, if_false]
        exact ih hnd.2 h

/-- Claim C1: a reminder is selected for triggering by `check_reminders`
at scan time `now` (emits at least one tuple) iff it is unsent, due,
under the retry limit of 3, and either never attempted or more than 300
seconds past its last attempt; every tuple of the returned list comes
from such a reminder, so a reminder with `sent = true` never
contributes to the output. -/
theorem check_reminders_eligibility (s : TaskScheduler) (now : Int) :
    (∀ (id : Nat) (title descr : String) (i : Nat) (r : Reminder),
      (processReminder now id title descr i r).2.2 ≠ [] ↔
        (r.sent = false ∧ r.reminder_time ≤ now ∧ r.retry_count < 3 ∧
          (r.last_attempt = none ∨
            ∃ la, r.last_attempt = some la ∧ now - la > 300)))
    ∧ (∀ e, e ∈ (s.check_reminders now).1 →
        ∃ id t i r, (id, t) ∈ s.tasks ∧ t.reminders[i]? = some r ∧
          r.sent = false ∧ r.reminder_time ≤ now ∧ r.retry_count < 3 ∧
          (r.last_attempt = none ∨
            ∃ la, r.last_attempt = some la ∧ now - la > 300) ∧
          e ∈ (processReminder now id t.title t.description i r).2.2) := by
  constructor
  · intro id title descr i r
    rw [processReminder_out_ne_iff]
    exact triggerCond_iff now r
  · intro e he
    rw [check_reminders_fst, List.mem_flatten] at he
    obtain ⟨l, hl, hel⟩ := he
    rw [List.mem_map] at hl
    obtain ⟨p, hp, rfl⟩ := hl
    have hel2 : e ∈ (processReminders now p.1 p.2.title p.2.description
        0 p.2.reminders).2.2 := hel
    obtain ⟨j, r, hj, hepr⟩ :=
      mem_processReminders_out now p.1 p.2.title p.2.description p.2.reminders 0 e hel2
    have hc := (processReminder_out_mem _ _ _ _ _ _ _ hepr).1
    have hprops := (triggerCond_iff now r).mp hc
    refine ⟨p.1, p.2, j, r, by simpa using hp, hj, hprops.1, hprops.2.1,
      hprops.2.2.1, hprops.2.2.2, ?_⟩
    simpa using hepr

/-- Witness for C1: a fresh, due email reminder is selected. -/
theorem check_reminders_eligibility_witness :
    (processReminder 10 1 "Groceries" "buy milk" 0 rFresh).2.2 ≠ [] :=
  ((check_reminders_eligibility sFresh 10).1 1 "Groceries" "buy milk" 0 rFresh).mpr
    ⟨rfl, by decide, by decide, Or.inl rfl⟩

/-- Counterexample for C2: a due, fresh reminder of type `All` yields
exactly TWO tuples from `check_reminders` (Email and Sms, sharing index
0) — no `Notification` tuple — and its `sent` flag is still false after
the call (only `last_attempt` and `retry_count` were updated). -/
theorem all_reminder_counterexample :
    (sAll.check_reminders 0).1 =
      [(1, "Groceries", ReminderType.Email, some 0),
       (1, "Groceries", ReminderType.Sms, some 0)] ∧
    ((sAll.check_reminders 0).2.get_task 1).bind (fun t => t.reminders[0]?) =
      some { rAll with last_attempt := some 0, retry_count := 1 } ∧
    ({ rAll with last_attempt := some 0, retry_count := 1 }).sent = false ∧
    (sAll.check_reminders 0).1.length ≠ 3 := by
  decide

/-- Claim C2 (amended): for every eligible reminder of type `All` (due,
unsent, retry-eligible), one `check_reminders` call emits exactly two
tuples for it — one Email and one Sms, sharing the same reminder
index — queues one desktop notification dispatched inside the call,
and leaves the `sent` flag unchanged (false); `sent` is set later by
`mark_reminder_as_sent` per delivered channel. -/
theorem all_reminder_behavior (now : Int) (id : Nat) (title descr : String)
    (i : Nat) (r : Reminder) (hty : r.reminder_type = ReminderType.All)
    (hsent : r.sent = false) (htime : r.reminder_time ≤ now)
    (hretry : r.retry_count < 3)
    (hla : r.last_attempt = none ∨
      ∃ la, r.last_attempt = some la ∧ now - la > 300) :
    processReminder now id title descr i r =
      ({ r with last_attempt := some now, retry_count := r.retry_count + 1 },
       [(title, descr)],
       [(id, title, ReminderType.Email, some i),
        (id, title, ReminderType.Sms, some i)]) ∧
    ({ r with
        last_attempt := some now
        retry_count := r.retry_count + 1 }).sent = r.sent := by
  have hc : triggerCond now r = true :=
    (triggerCond_iff now r).mpr ⟨hsent, htime, hretry, hla⟩
  constructor
  · simp [processReminder, hc, hty]
  · rfl

/-- Witness for C2 (amended): the concrete `All` reminder emits the
Email and Sms tuples with index 0 and one queued notification. -/
theorem all_reminder_behavior_witness :
    processReminder 5 1 "Groceries" "buy milk" 0 rAll =
      ({ rAll with last_attempt := some 5, retry_count := 1 },
       [("Groceries", "buy milk")],
       [(1, "Groceries", ReminderType.Email, some 0),
        (1, "Groceries", ReminderType.Sms, some 0)]) :=
  (all_reminder_behavior 5 1 "Groceries" "buy milk" 0 rAll rfl rfl
    (by decide) (by decide) (Or.inl rfl)).1

/-- Claim C3: a store holding one task with a single fresh email
reminder due at or before `now` gets exactly one triggered tuple
`(tid, title, Email, some 0)` from `check_reminders`; afterwards the
reminder has `retry_count = 1`, `last_attempt = some now`, and `sent`
still false, until `mark_reminder_as_sent` sets it true. -/
theorem email_reminder_scenario (tid : Nat) (t : Task) (r : Reminder)
    (s : TaskScheduler) (now : Int)
    (hrem : t.reminders = [r]) (hs : s.tasks = [(tid, t)])
    (hty : r.reminder_type = ReminderType.Email) (hsent : r.sent = false)
    (hrc : r.retry_count = 0) (hla : r.last_attempt = none)
    (htime : r.reminder_time ≤ now) :
    (s.check_reminders now).1 = [(tid, t.title, ReminderType.Email, some 0)] ∧
    ((s.check_reminders now).2.get_task tid).bind (fun u => u.reminders[0]?) =
      some { r with retry_count := 1, last_attempt := some now } ∧
    ({ r with retry_count := 1, last_attempt := some now }).sent = false ∧
    (((s.check_reminders now).2.mark_reminder_as_sent tid 0).1.get_task tid).bind
        (fun u => u.reminders[0]?) =
      some { r with
        retry_count := 1
        last_attempt := some now
        sent := true } := by
  have hc : triggerCond now r = true :=
    (triggerCond_iff now r).mpr ⟨hsent, htime, by omega, Or.inl hla⟩
  have hpr : processReminder now tid t.title t.description 0 r =
      ({ r with last_attempt := some now, retry_count := r.retry_count + 1 },
       [], [(tid, t.title, ReminderType.Email, some 0)]) := by
    simp [processReminder, hc, hty]
  have hr1 : ({ r with
      last_attempt := some now
      retry_count := r.retry_count + 1 }) =
      { r with retry_count := 1, last_attempt := some now } := by
    rw [hrc]
  have hout : (s.check_reminders now).1 =
      [(tid, t.title, ReminderType.Email, some 0)] := by
    rw [check_reminders_fst, hs]
    simp [processTask, processReminders, hrem, hpr]
  have htasks : (s.check_reminders now).2.tasks =
      [(tid, { t with reminders :=
        [{ r with retry_count := 1, last_attempt := some now }] })] := by
    rw [check_reminders_tasks, hs]
    simp [processTask, processReminders, hrem, hpr, hr1]
  have hget : (s.check_reminders now).2.get_task tid =
      some { t with reminders :=
        [{ r with retry_count := 1, last_attempt := some now }] } := by
    simp [TaskScheduler.get_task, htasks, lookupTask]
  refine ⟨hout, ?_, hsent, ?_⟩
  · simp [hget]
  · obtain ⟨-, h2, -⟩ := mark_sent_ok (s.check_reminders now).2 tid 0
      ({ t with reminders :=
        [{ r with retry_count := 1, last_attempt := some now }] })
      ({ r with retry_count := 1, last_attempt := some now }) hget (by simp)
    exact h2

/-- Witness for C3: the concrete fresh email store at scan time 10. -/
theorem email_reminder_scenario_witness :
    (sFresh.check_reminders 10).1 =
      [(1, "Groceries", ReminderType.Email, some 0)] ∧
    ((sFresh.check_reminders 10).2.get_task 1).bind (fun u => u.reminders[0]?) =
      some { rFresh with retry_count := 1, last_attempt := some 10 } :=
  ⟨(email_reminder_scenario 1 tFresh rFresh sFresh 10 rfl rfl rfl rfl rfl rfl
      (by decide)).1,
   (email_reminder_scenario 1 tFresh rFresh sFresh 10 rfl rfl rfl rfl rfl rfl
      (by decide)).2.1⟩

/-- One `check_reminders` call neither re-triggers nor modifies a
retry-exhausted reminder, and preserves key uniqueness. -/
theorem check_step_preserves_exhausted (s : TaskScheduler) (now : Int)
    (tid i : Nat) (r : Reminder)
    (hnd : (s.tasks.map Prod.fst).Nodup)
    (ht : (s.get_task tid).bind (fun t => t.reminders[i]?) = some r)
    (h3 : 3 ≤ r.retry_count) :
    ((s.check_reminders now).2.get_task tid).bind
        (fun t => t.reminders[i]?) = some r ∧
    (((s.check_reminders now).2.tasks).map Prod.fst).Nodup ∧
    (∀ title ty, (tid, title, ty, some i) ∉ (s.check_reminders now).1) := by
  cases hgt : s.get_task tid with
  | none => rw [hgt] at ht; simp at ht
  | some t =>
    rw [hgt] at ht
    simp only [Option.some_bind] at ht
    have hcf : triggerCond now r = false := by
      cases hc : triggerCond now r with
      | false => rfl
      | true =>
        have := ((triggerCond_iff now r).mp hc).2.2.1
        omega
    have hkeys : ((s.check_reminders now).2.tasks).map Prod.fst =
        (s.tasks).map Prod.fst := by
      rw [check_reminders_tasks, List.map_map]
      congr 1
    refine ⟨?_, by rw [hkeys]; exact hnd, ?_⟩
    · have hlm : (s.check_reminders now).2.get_task tid =
          some (processTask now tid t).1 := by
        show lookupTask tid (s.check_reminders now).2.tasks = _
        rw [check_reminders_tasks,
          lookupTask_map s.tasks tid (fun k u => (processTask now k u).1)]
        rw [show lookupTask tid s.tasks = some t from hgt]
        rfl
      rw [hlm]
      simp only [Option.some_bind, processTask]
      rw [processReminders_fst_getElem now tid t.title t.description
        t.reminders 0 i]
      rw [ht]
      simp [processReminder_not_triggered now tid t.title t.description i r hcf]
    · intro title ty hm
      rw [check_reminders_fst, List.mem_flatten] at hm
      obtain ⟨l, hl, hel⟩ := hm
      rw [List.mem_map] at hl
      obtain ⟨p, hp, rfl⟩ := hl
      have hel2 : (tid, title, ty, some i) ∈ (processReminders now p.1
          p.2.title p.2.description 0 p.2.reminders).2.2 := hel
      obtain ⟨j, rj, hj, hepr⟩ := mem_processReminders_out now p.1 p.2.title
        p.2.description p.2.reminders 0 _ hel2
      obtain ⟨hcj, hid, hidx⟩ := processReminder_out_mem _ _ _ _ _ _ _ hepr
      have hp1 : p.1 = tid := hid.symm
      have hji : j = i := by
        rcases hidx with h | h
        · simpa using h.symm
        · simp at h
      subst hji
      have hlook : lookupTask tid s.tasks = some p.2 := by
        rw [← hp1]
        exact lookupTask_eq_of_mem_nodup s.tasks p.1 p.2 hnd (by simpa using hp)
      have hteq : p.2 = t := by
        have := hgt
        rw [show s.get_task tid = lookupTask tid s.tasks from rfl, hlook] at this
        exact (Option.some.injEq _ _ ▸ this : p.2 = t)
      rw [hteq] at hj
      rw [hj] at ht
      have hrj : rj = r := by simpa using ht
      rw [hrj, hcf] at hcj
      exact Bool.false_ne_true hcj

/-- Claim C4: once the `retry_count` of a reminder has reached 3 without
`sent` becoming true, no later sequence of `check_reminders` calls, at
any scan times, ever emits a tuple for it again, and the reminder is
left untouched; moreover the scan never decreases any
`retry_count`. -/
theorem retry_exhausted_never_retriggered (s : TaskScheduler) (tid i : Nat)
    (r : Reminder) (hnd : (s.tasks.map Prod.fst).Nodup)
    (ht : (s.get_task tid).bind (fun t => t.reminders[i]?) = some r)
    (h3 : 3 ≤ r.retry_count) (_hsent : r.sent = false) (nows : List Int) :
    ((runChecks s nows).2.get_task tid).bind (fun t => t.reminders[i]?) = some r ∧
    (∀ out ∈ (runChecks s nows).1, ∀ title ty, (tid, title, ty, some i) ∉ out) ∧
    (∀ (now2 : Int) (id2 : Nat) (ttl dsc : String) (j : Nat) (q : Reminder),
      q.retry_count ≤ (processReminder now2 id2 ttl dsc j q).1.retry_count) := by
  have main : ∀ (ns : List Int) (s2 : TaskScheduler),
      (s2.tasks.map Prod.fst).Nodup →
      (s2.get_task tid).bind (fun t => t.reminders[i]?) = some r →
      ((runChecks s2 ns).2.get_task tid).bind (fun t => t.reminders[i]?) = some r ∧
      ∀ out ∈ (runChecks s2 ns).1, ∀ title ty, (tid, title, ty, some i) ∉ out := by
    intro ns
    induction ns with
    | nil =>
      intro s2 hnd2 ht2
      exact ⟨ht2, by simp [runChecks]⟩
    | cons now rest ih =>
      intro s2 hnd2 ht2
      obtain ⟨hpres, hnd3, hnomem⟩ :=
        check_step_preserves_exhausted s2 now tid i r hnd2 ht2 h3
      obtain ⟨ih1, ih2⟩ := ih (s2.check_reminders now).2 hnd3 hpres
      refine ⟨ih1, ?_⟩
      intro out hout title ty
      simp only [runChecks, List.mem_cons] at hout
      rcases hout with rfl | h
      · exact hnomem title ty
      · exact ih2 out h title ty
  exact ⟨(main nows s hnd ht).1, (main nows s hnd ht).2,
    fun now2 id2 ttl dsc j q => processReminder_retry_mono now2 id2 ttl dsc j q⟩

/-- Witness for C4: the exhausted reminder survives two scans untouched. -/
theorem retry_exhausted_never_retriggered_witness :
    ((runChecks sSpent [100, 1000]).2.get_task 1).bind
        (fun t => t.reminders[0]?) = some rSpent :=
  (retry_exhausted_never_retriggered sSpent 1 0 rSpent (by decide) (by decide)
    (by decide) rfl [100, 1000]).1

end Toolbox
